import Mathlib

/-!
Verification of the Unravel "Inefficient Cluster Costs" reporting script
(`Inefficient_Cluster-Costs_Report.v1.0.py`).

The script is a straight-line pipeline: validate the poll-frequency
configuration, authenticate, fetch a cluster list, flatten each cluster into
one report row per insight title, and hand the rows to a CSV writer.  The
definitions below are a shallow embedding of those functions.  Python values
appearing in record fields are embedded as `PyVal`; Python dicts (which
preserve insertion order) are embedded as association lists; functions that
can raise or call `exit` return `Except`.
-/

namespace Unravel

/-- Embedding of the Python values that can appear in a cluster-record field:
`None`, strings, ints, and floats (floats idealized as rationals). -/
inductive PyVal where
  | none
  | str (s : String)
  | int (n : Int)
  | float (q : ℚ)
  deriving Repr, DecidableEq

/-- A Python dict with string keys, embedded as an insertion-ordered
association list. -/
abbrev PyDict := List (String × PyVal)

/-- Exceptions the embedded code can raise. -/
inductive PyErr where
  | keyError
  | attributeError
  | valueError
  | indexError
  deriving Repr, DecidableEq

/-- Dict subscript `d[k]`: first binding of `k`, `Option.none` when absent. -/
def dictGet (d : PyDict) (k : String) : Option PyVal :=
  match d with
  | [] => Option.none
  | (k1, v1) :: rest => if k1 = k then some v1 else dictGet rest k

/-- Python `d.get(k)`: the bound value, or `None` when the key is absent. -/
def dictGetD (d : PyDict) (k : String) : PyVal :=
  (dictGet d k).getD PyVal.none

/-- Dict assignment `d[k] = v`: overwrite in place when `k` is present,
append a new binding otherwise (Python dicts keep insertion order). -/
def dictSet (d : PyDict) (k : String) (v : PyVal) : PyDict :=
  match d with
  | [] => [(k, v)]
  | (k1, v1) :: rest => if k1 = k then (k, v) :: rest else (k1, v1) :: dictSet rest k v

/-- The module-level `errorCodesDict` (source lines 74-80), embedded as a
partial map from codes to messages. -/
def errorCodesDict : Nat → Option String
  | 0 => some "API: Your query returned 0 results"
  | 1 => some "Date/Time: Value Out of Bounds"
  | 3 => some "API: Your query resulted in an unknown error state"
  | 400 => some "Authentication failed: Invalid credentials"
  | 405 => some "API: Your target endpoint has an invalid configuration"
  | _ => Option.none

/-- The module-level `keep_Insight_duplicates` flag (source line 19). -/
def keep_Insight_duplicates : Bool := false

/-- Ways the script's fatal paths leave the program: a reached `exit(msg)`
call, a print followed by `exit(msg)`, or an uncaught lookup error raised
while evaluating the argument of `exit` (`errorCodesDict[k]` for a key `k`
that is not in the table, or a range-dict lookup with an unknown unit). -/
inductive PyTermination where
  | exitMsg (msg : String)
  | printThenExit (printed : String) (msg : String)
  | keyErrorNat (key : Nat)
  | keyErrorStr (key : String)
  deriving Repr, DecidableEq

/-- The inclusive bounds of `unravelPollFreqRangeDict` (source lines
101-107): `list(range(1, 300))` is `1 .. 299`, and so on. -/
def unravelPollFreqRangeDict : String → Option (Int × Int)
  | "seconds" => some (1, 299)
  | "minutes" => some (1, 719)
  | "hours" => some (1, 47)
  | "days" => some (1, 90)
  | "weeks" => some (1, 4)
  | _ => Option.none

/-- Embedding of `validate_poll_frequency` (source lines 98-122).  An
in-range value returns the single-key dict `{unit: value}`.  An out-of-range
value prints a message and then evaluates `exit(errorCodesDict[9])`; the
lookup of key 9 happens before `exit` runs, so a missing key raises
`KeyError` instead of exiting with a table message. -/
def validate_poll_frequency (unit : String) (value : Int) :
    Except PyTermination (List (String × Int)) :=
  match unravelPollFreqRangeDict unit with
  | Option.none => .error (.keyErrorStr unit)
  | some (lo, hi) =>
    if lo ≤ value ∧ value ≤ hi then
      .ok [(unit, value)]
    else
      match errorCodesDict 9 with
      | some msg => .error (.exitMsg msg)
      | Option.none => .error (.keyErrorNat 9)

/-- Embedding of `format_milliseconds` (source lines 133-151): iterated
`divmod` (Python floor division and modulus, hence `Int.fdiv`/`Int.fmod`),
then the non-zero components joined with single spaces. -/
def format_milliseconds (value : Int) : String :=
  let seconds0 := value.fdiv 1000
  let days := seconds0.fdiv 86400
  let seconds1 := seconds0.fmod 86400
  let hours := seconds1.fdiv 3600
  let seconds2 := seconds1.fmod 3600
  let minutes := seconds2.fdiv 60
  let seconds3 := seconds2.fmod 60
  let parts : List String :=
    (if days > 0 then [toString days ++ "d"] else []) ++
    (if hours > 0 then [toString hours ++ "h"] else []) ++
    (if minutes > 0 then [toString minutes ++ "m"] else []) ++
    (if seconds3 > 0 then [toString seconds3 ++ "s"] else [])
  String.intercalate " " parts

/-- Specification-side formatter: each component computed directly from the
millisecond count (days `n / 86400000`, hours `n / 3600000 mod 24`, minutes
`n / 60000 mod 60`, seconds `n / 1000 mod 60`), non-zero components joined
with spaces in descending order. -/
def spec_format_ms (n : Nat) : String :=
  let d := n / 86400000
  let h := n / 3600000 % 24
  let m := n / 60000 % 60
  let s := n / 1000 % 60
  let parts : List String :=
    (if 0 < d then [toString d ++ "d"] else []) ++
    (if 0 < h then [toString h ++ "h"] else []) ++
    (if 0 < m then [toString m ++ "m"] else []) ++
    (if 0 < s then [toString s ++ "s"] else [])
  String.intercalate " " parts

theorem fdiv_ofNat (a b : Nat) : (a : Int).fdiv (b : Int) = ((a / b : Nat) : Int) :=
  (Int.ofNat_fdiv a b).symm

theorem fmod_ofNat (a b : Nat) : (a : Int).fmod (b : Int) = ((a % b : Nat) : Int) :=
  (Int.ofNat_fmod a b).symm

theorem toString_intOfNat (k : Nat) : toString (k : Int) = toString k := rfl

/-- C2: for every non-negative millisecond count, `format_milliseconds`
agrees with the direct component formulas (zero components omitted), and the
documented examples evaluate as the spec states. -/
theorem C2_format_milliseconds :
    (∀ n : Nat, format_milliseconds (n : Int) = spec_format_ms n) ∧
    format_milliseconds 0 = "" ∧
    format_milliseconds 1000 = "1s" ∧
    format_milliseconds 61000 = "1m 1s" ∧
    format_milliseconds 3661000 = "1h 1m 1s" ∧
    format_milliseconds 90061000 = "1d 1h 1m 1s" := by
  refine ⟨?_, rfl, rfl, rfl, rfl, rfl⟩
  intro n
  have hd : n / 1000 / 86400 = n / 86400000 := by omega
  have hh : n / 1000 % 86400 / 3600 = n / 3600000 % 24 := by omega
  have hm : n / 1000 % 86400 % 3600 / 60 = n / 60000 % 60 := by omega
  have hs : n / 1000 % 86400 % 3600 % 60 = n / 1000 % 60 := by omega
  simp only [format_milliseconds, spec_format_ms,
    show ((1000 : ℤ)) = ((1000 : ℕ) : ℤ) from rfl,
    show ((86400 : ℤ)) = ((86400 : ℕ) : ℤ) from rfl,
    show ((3600 : ℤ)) = ((3600 : ℕ) : ℤ) from rfl,
    show ((60 : ℤ)) = ((60 : ℕ) : ℤ) from rfl,
    fdiv_ofNat, fmod_ofNat, toString_intOfNat, gt_iff_lt, Int.natCast_pos,
    hd, hh, hm, hs]

/-- C3: on every in-range (unit, value) pair the validator returns the
single-key mapping `{unit: value}`; on out-of-range values the code path
that should exit with a table message instead evaluates `errorCodesDict[9]`,
a key absent from the table, so it raises `KeyError` rather than exiting
with a descriptive table entry. -/
theorem C3_validate_poll_frequency_eval :
    validate_poll_frequency "days" 90 = .ok [("days", 90)] ∧
    validate_poll_frequency "days" 1 = .ok [("days", 1)] ∧
    validate_poll_frequency "seconds" 299 = .ok [("seconds", 299)] ∧
    validate_poll_frequency "minutes" 719 = .ok [("minutes", 719)] ∧
    validate_poll_frequency "hours" 47 = .ok [("hours", 47)] ∧
    validate_poll_frequency "weeks" 4 = .ok [("weeks", 4)] ∧
    validate_poll_frequency "days" 91 = .error (.keyErrorNat 9) ∧
    validate_poll_frequency "days" 0 = .error (.keyErrorNat 9) ∧
    validate_poll_frequency "seconds" 300 = .error (.keyErrorNat 9) ∧
    validate_poll_frequency "weeks" 5 = .error (.keyErrorNat 9) ∧
    errorCodesDict 9 = Option.none :=
  ⟨rfl, rfl, rfl, rfl, rfl, rfl, rfl, rfl, rfl, rfl, rfl⟩

/-- The parts of the UnifiedSearch HTTP response that `get_cluster_detail`
reads: the status code, `json()['metadata']['totalRecords']`,
`json()['results']`, the 422 error message `json()['error'][0]['message']`,
and the raw JSON body printed on unknown statuses. -/
structure SearchResponse where
  status : Nat
  totalRecords : Nat
  results : List PyDict
  errorMessage : String
  rawBody : String
  deriving Repr, DecidableEq

/-- Evaluate `exit(errorCodesDict[k])`: the lookup runs first, so a missing
key raises `KeyError` instead of exiting. -/
def exit_with_code (k : Nat) : PyTermination :=
  match errorCodesDict k with
  | some msg => .exitMsg msg
  | Option.none => .keyErrorNat k

/-- Embedding of the status dispatch of `get_cluster_detail` (source lines
257-274): 200 with records returns the result list; 200 with zero records
exits with `errorCodesDict[1]`; 422 prints the server error message and
exits with `errorCodesDict[1]`; 405 evaluates `errorCodesDict[4]`; anything
else prints the raw response and exits with `errorCodesDict[3]`. -/
def get_cluster_detail (resp : SearchResponse) :
    Except PyTermination (List PyDict) :=
  if resp.status = 200 ∧ 0 < resp.totalRecords then
    .ok resp.results
  else if resp.status = 200 ∧ resp.totalRecords = 0 then
    .error (exit_with_code 1)
  else if resp.status = 422 then
    match exit_with_code 1 with
    | .exitMsg msg => .error (.printThenExit resp.errorMessage msg)
    | t => .error t
  else if resp.status = 405 then
    .error (exit_with_code 4)
  else
    match exit_with_code 3 with
    | .exitMsg msg => .error (.printThenExit resp.rawBody msg)
    | t => .error t

/-- C4: evaluation of the fetcher's fatal paths.  The 422 and unknown-status
paths behave as claimed, but on 200 with zero records the code exits with
`errorCodesDict[1]` ("Date/Time: Value Out of Bounds") instead of the
no-results entry (key 0), and on 405 it evaluates `errorCodesDict[4]`, a key
absent from the table, raising `KeyError` instead of exiting with the
misconfigured-endpoint entry (key 405). -/
theorem C4_get_cluster_detail_eval :
    get_cluster_detail ⟨200, 2, [[("id", PyVal.str "a")]], "", ""⟩ =
      .ok [[("id", PyVal.str "a")]] ∧
    get_cluster_detail ⟨200, 0, [], "", ""⟩ =
      .error (.exitMsg "Date/Time: Value Out of Bounds") ∧
    errorCodesDict 0 = some "API: Your query returned 0 results" ∧
    ("Date/Time: Value Out of Bounds" : String) ≠
      "API: Your query returned 0 results" ∧
    get_cluster_detail ⟨422, 0, [], "bad start_time", ""⟩ =
      .error (.printThenExit "bad start_time" "Date/Time: Value Out of Bounds") ∧
    get_cluster_detail ⟨405, 0, [], "", ""⟩ = .error (.keyErrorNat 4) ∧
    errorCodesDict 4 = Option.none ∧
    errorCodesDict 405 = some "API: Your target endpoint has an invalid configuration" ∧
    get_cluster_detail ⟨500, 0, [], "", "raw server output"⟩ =
      .error (.printThenExit "raw server output"
        "API: Your query resulted in an unknown error state") := by
  refine ⟨rfl, rfl, rfl, ?_, rfl, rfl, rfl, rfl, rfl⟩
  decide

/-- Embedding of `dict.fromkeys(insight_values)` key insertion: walk the
list, inserting each title into the (insertion-ordered) key set unless it is
already present. -/
def pyDictFromKeysAux (acc : List String) : List String → List String
  | [] => acc
  | x :: xs => pyDictFromKeysAux (if acc.contains x then acc else acc ++ [x]) xs

/-- Embedding of `list(dict.fromkeys(insight_values))` (source line 355). -/
def pyDictFromKeys (xs : List String) : List String :=
  pyDictFromKeysAux [] xs

/-- Embedding of the duplicate-removal branch of `parse_cluster_data`
(source lines 353-355), parameterized by the `keep_Insight_duplicates`
configuration flag. -/
def dedup_insights (keep_dups : Bool) (xs : List String) : List String :=
  if keep_dups then xs else pyDictFromKeys xs

/-- Specification-side first-occurrence deduplication: keep each title the
first time it appears and delete all its later occurrences. -/
def spec_dedup : List String → List String
  | [] => []
  | x :: xs => x :: spec_dedup (xs.filter (fun y => y != x))
termination_by xs => xs.length
decreasing_by
  simp only [List.length_cons]
  have := List.length_filter_le (fun y => y != x) xs
  omega

theorem pyDictFromKeysAux_spec (xs : List String) :
    ∀ acc : List String,
      pyDictFromKeysAux acc xs = acc ++ spec_dedup (xs.filter (fun y => !acc.contains y)) := by
  induction xs with
  | nil => intro acc; simp [pyDictFromKeysAux, spec_dedup]
  | cons x rest ih =>
    intro acc
    by_cases hx : acc.contains x
    · have hmem : x ∈ acc := by simpa [List.contains] using hx
      have hfilter :
          (x :: rest).filter (fun y => !acc.contains y) =
            rest.filter (fun y => !acc.contains y) := by
        simp [List.filter_cons, List.contains, hmem]
      rw [hfilter, pyDictFromKeysAux, if_pos hx, ih acc]
    · have hmem : x ∉ acc := by simpa [List.contains] using hx
      have hfilter :
          (x :: rest).filter (fun y => !acc.contains y) =
            x :: rest.filter (fun y => !acc.contains y) := by
        simp [List.filter_cons, List.contains, hmem]
      have hpred :
          rest.filter (fun y => !(acc ++ [x]).contains y) =
            (rest.filter (fun y => !acc.contains y)).filter (fun y => y != x) := by
        rw [List.filter_filter]
        apply List.filter_congr
        intro a _
        by_cases hax : a = x
        · subst hax
          simp [List.contains]
        · by_cases ham : a ∈ acc
          · simp [List.contains, ham, hax]
          · simp [List.contains, ham, hax]
      rw [hfilter, pyDictFromKeysAux, if_neg hx, ih (acc ++ [x]), hpred, spec_dedup]
      simp

/-- C5: with the flag requesting duplicates the insight list passes through
unchanged; with deduplication on, `list(dict.fromkeys(...))` is exactly
first-occurrence deduplication, and the documented example evaluates as the
spec states. -/
theorem C5_dedup_insights :
    (∀ xs : List String, dedup_insights true xs = xs) ∧
    (∀ xs : List String, dedup_insights false xs = spec_dedup xs) ∧
    dedup_insights false ["A", "B", "A", "C"] = ["A", "B", "C"] ∧
    dedup_insights true ["A", "B", "A", "C"] = ["A", "B", "A", "C"] := by
  have hfalse : ∀ xs : List String, dedup_insights false xs = spec_dedup xs := by
    intro xs
    have h := pyDictFromKeysAux_spec xs []
    have heq : xs.filter (fun y => !(([] : List String).contains y)) = xs := by
      simp [List.contains]
    rw [heq] at h
    simpa [dedup_insights, pyDictFromKeys] using h
  refine ⟨fun xs => rfl, hfalse, ?_, rfl⟩
  rw [hfalse]
  simp [spec_dedup]

/-- The `fieldnames_dict` of `parse_cluster_data` (source lines 280-292),
in insertion order: source field name paired with the renamed output
column. -/
def fieldnames_dict : List (String × String) :=
  [("status_long", "Status"),
   ("name", "Cluster Name"),
   ("runName", "Job Name"),
   ("clusterType", "Cluster Type"),
   ("raw_user", "User"),
   ("queue", "Workspace"),
   ("start_time", "Start Time"),
   ("setupDuration", "Setup Duration"),
   ("duration_long", "Duration"),
   ("cost", "Cost"),
   ("dbus", "DBUs")]

/-- Embedding of the per-field normalization in `parse_cluster_data`
(source lines 302-310): an empty (falsy) string becomes "-"; an int or
float equal to zero becomes `None`; everything else, including an absent
value (`None` from `.get`), passes through the else branch unchanged. -/
def normalize_value : PyVal → PyVal
  | PyVal.str s => if s = "" then PyVal.str "-" else PyVal.str s
  | PyVal.int n => if n = 0 then PyVal.none else PyVal.int n
  | PyVal.float q => if q = 0 then PyVal.none else PyVal.float q
  | PyVal.none => PyVal.none

/-- The projection/renaming/normalization loop of `parse_cluster_data`
(source lines 296-310): build `temp_dict` with one entry per renamed field,
in `fieldnames_dict` order, from the cluster record's values. -/
def project_normalize (cluster : PyDict) : PyDict :=
  fieldnames_dict.map (fun kv => (kv.2, normalize_value (dictGetD cluster kv.1)))

/-- Drop a leading run of whitespace characters. -/
def dropWs : List Char → List Char
  | [] => []
  | c :: cs => if c.isWhitespace then dropWs cs else c :: cs

/-- Split off the leading non-whitespace token, returning it with the rest
of the characters. -/
def takeTok : List Char → List Char × List Char
  | [] => ([], [])
  | c :: cs =>
    if c.isWhitespace then ([], c :: cs)
    else
      let p := takeTok cs
      (c :: p.1, p.2)

/-- Embedding of Python `s.split(sep=None, maxsplit=1)`: strip leading
whitespace, take the first whitespace-delimited token, then strip the
delimiter run; if what remains is empty the result is one token, otherwise
the token and the untouched remainder. -/
def pySplit1 (s : String) : List String :=
  let cs := dropWs s.data
  if cs.isEmpty then []
  else
    let p := takeTok cs
    let rest := dropWs p.2
    if rest.isEmpty then [String.mk p.1] else [String.mk p.1, String.mk rest]

/-- Embedding of the "Start Time" reformatting (source lines 313-315).
Values other than the placeholder "-" are split as `date, time` and rebuilt
as `time ++ ", " ++ date`; a non-string value has no `.split` attribute
(AttributeError), and a split that does not produce two parts fails the
unpacking (ValueError).  Neither failure is caught by the script. -/
def format_start_time_step (td : PyDict) : Except PyErr PyDict :=
  match dictGet td "Start Time" with
  | Option.none => .error .keyError
  | some v =>
    if v = PyVal.str "-" then .ok td
    else
      match v with
      | PyVal.str s =>
        match pySplit1 s with
        | [key_date, key_time] =>
          .ok (dictSet td "Start Time" (PyVal.str (key_time ++ ", " ++ key_date)))
        | _ => .error .valueError
      | _ => .error .attributeError

/-- Behaviour of `format_milliseconds` on a Python float: floor divisions
keep every component an integral float, and the f-string renders each one
with a trailing ".0".  The rational `q` is the idealized value of the
float. -/
def format_milliseconds_float (q : ℚ) : String :=
  let seconds0 : Int := ⌊q / 1000⌋
  let days := seconds0.fdiv 86400
  let seconds1 := seconds0.fmod 86400
  let hours := seconds1.fdiv 3600
  let seconds2 := seconds1.fmod 3600
  let minutes := seconds2.fdiv 60
  let seconds3 := seconds2.fmod 60
  let parts : List String :=
    (if days > 0 then [toString days ++ ".0d"] else []) ++
    (if hours > 0 then [toString hours ++ ".0h"] else []) ++
    (if minutes > 0 then [toString minutes ++ ".0m"] else []) ++
    (if seconds3 > 0 then [toString seconds3 ++ ".0s"] else [])
  String.intercalate " " parts

/-- Embedding of the duration-field reformatting (source lines 318-329):
skip `None`; format an int (or float) through `format_milliseconds`; on any
other value `format_milliseconds` raises, the exception is caught, a
message is printed and the value stays unchanged. -/
def format_duration_step (key : String) (td : PyDict) : Except PyErr PyDict :=
  match dictGet td key with
  | Option.none => .error .keyError
  | some PyVal.none => .ok td
  | some (PyVal.int n) => .ok (dictSet td key (PyVal.str (format_milliseconds n)))
  | some (PyVal.float q) => .ok (dictSet td key (PyVal.str (format_milliseconds_float q)))
  | some (PyVal.str _) => .ok td

/-- Round-half-to-even on the idealized rational value of a Python float,
the tie-breaking rule of Python's `round`. -/
def roundHalfEven (q : ℚ) : Int :=
  let f : Int := ⌊q⌋
  let r : ℚ := q - f
  if r < 1 / 2 then f
  else if 1 / 2 < r then f + 1
  else if f % 2 = 0 then f else f + 1

/-- Python `round(x, 2)` on the idealized rational value of a float. -/
def round2 (q : ℚ) : ℚ := (roundHalfEven (q * 100) : ℚ) / 100

/-- Embedding of the "Cost"/"DBUs" rounding (source lines 332-343): skip
`None`; `round(int, 2)` is the int itself; a float is rounded to two
places; on any other value `round` raises, the exception is caught and the
value stays unchanged. -/
def round_step (key : String) (td : PyDict) : Except PyErr PyDict :=
  match dictGet td key with
  | Option.none => .error .keyError
  | some PyVal.none => .ok td
  | some (PyVal.int n) => .ok (dictSet td key (PyVal.int n))
  | some (PyVal.float q) => .ok (dictSet td key (PyVal.float (round2 q)))
  | some (PyVal.str _) => .ok td

/-- The per-cluster field pipeline of `parse_cluster_data` (source lines
296-343): project and normalize, then reformat "Start Time", the two
duration fields, and the two numeric fields, in source order. -/
def processClusterFields (cluster : PyDict) : Except PyErr PyDict := do
  let td := project_normalize cluster
  let td ← format_start_time_step td
  let td ← format_duration_step "Setup Duration" td
  let td ← format_duration_step "Duration" td
  let td ← round_step "Cost" td
  round_step "DBUs" td

/-- Embedding of `parse_cluster_data` (source lines 279-362), parameterized
by the `keep_Insight_duplicates` flag and by the per-cluster insight fetch
(the HTTP call of `get_cluster_insights_by_app`, abstracted as a function
of the cluster record).  For each cluster: run the field pipeline, read the
`clusterUid` and `id` subscripts (KeyError when absent), fetch the insight
titles, optionally deduplicate them, and emit one copy of the row per title
with the title under the "Insights" key. -/
def parse_cluster_data (keep_dups : Bool) (fetch : PyDict → List String) :
    List PyDict → Except PyErr (List PyDict)
  | [] => .ok []
  | cluster :: rest => do
    let td ← processClusterFields cluster
    match dictGet cluster "clusterUid", dictGet cluster "id" with
    | some _, some _ =>
      let insight_values := dedup_insights keep_dups (fetch cluster)
      let rows := insight_values.map (fun val => dictSet td "Insights" (PyVal.str val))
      let more ← parse_cluster_data keep_dups fetch rest
      .ok (rows ++ more)
    | _, _ => .error .keyError

/-- The observable output of the CSV writer: the header (field names) and
the rows handed to `csv.DictWriter`. -/
structure CsvOut where
  header : List String
  rows : List PyDict
  deriving Repr, DecidableEq

/-- Embedding of `write_list_of_dicts_to_csv` (source lines 205-228):
`field_names = list(data[0].keys())` runs before the try/except that makes
write failures non-fatal, so an empty row list raises an uncaught
IndexError; otherwise the header is the first row's keys in insertion
order and every row is written. -/
def write_list_of_dicts_to_csv : List PyDict → Except PyErr CsvOut
  | [] => .error .indexError
  | d0 :: rest => .ok ⟨d0.map Prod.fst, d0 :: rest⟩

/-- First fetched cluster of the C1 scenario: full field set, two insight
titles. -/
def C1_cluster1 : PyDict :=
  [("status_long", PyVal.str "Success"), ("name", PyVal.str "clusterA"),
   ("runName", PyVal.str "jobA"), ("clusterType", PyVal.str "job"),
   ("raw_user", PyVal.str "alice"), ("queue", PyVal.str "ws1"),
   ("start_time", PyVal.str "2024-09-25 12:00:00"),
   ("setupDuration", PyVal.int 61000), ("duration_long", PyVal.int 3661000),
   ("cost", PyVal.int 5),
   ("clusterUid", PyVal.str "uidA"), ("id", PyVal.str "idA")]

/-- Second fetched cluster of the C1 scenario: sparse fields, no insight
titles. -/
def C1_cluster2 : PyDict :=
  [("name", PyVal.str "clusterB"), ("start_time", PyVal.str ""),
   ("clusterUid", PyVal.str "uidB"), ("id", PyVal.str "idB")]

/-- Insight fetch of the C1 scenario: two distinct titles for the first
cluster, none for the second. -/
def C1_fetch (c : PyDict) : List String :=
  if dictGet c "name" = some (PyVal.str "clusterA") then
    ["Insight one", "Insight two"]
  else []

/-- The flattened report the C1 scenario must produce: two rows, both
copies of the first cluster's projected fields, one per insight title. -/
def C1_rows : List PyDict :=
  [[("Status", PyVal.str "Success"), ("Cluster Name", PyVal.str "clusterA"),
    ("Job Name", PyVal.str "jobA"), ("Cluster Type", PyVal.str "job"),
    ("User", PyVal.str "alice"), ("Workspace", PyVal.str "ws1"),
    ("Start Time", PyVal.str "12:00:00, 2024-09-25"),
    ("Setup Duration", PyVal.str "1m 1s"), ("Duration", PyVal.str "1h 1m 1s"),
    ("Cost", PyVal.int 5), ("DBUs", PyVal.none),
    ("Insights", PyVal.str "Insight one")],
   [("Status", PyVal.str "Success"), ("Cluster Name", PyVal.str "clusterA"),
    ("Job Name", PyVal.str "jobA"), ("Cluster Type", PyVal.str "job"),
    ("User", PyVal.str "alice"), ("Workspace", PyVal.str "ws1"),
    ("Start Time", PyVal.str "12:00:00, 2024-09-25"),
    ("Setup Duration", PyVal.str "1m 1s"), ("Duration", PyVal.str "1h 1m 1s"),
    ("Cost", PyVal.int 5), ("DBUs", PyVal.none),
    ("Insights", PyVal.str "Insight two")]]

/-- C1: with two fetched clusters, the first yielding two distinct insight
titles and the second none, the flattened report is exactly two rows, both
derived from the first cluster, and the CSV writer's header is the renamed
field set plus "Insights". -/
theorem C1_end_to_end :
    parse_cluster_data false C1_fetch [C1_cluster1, C1_cluster2] = .ok C1_rows ∧
    C1_rows.length = 2 ∧
    C1_rows.map (fun r => dictGet r "Cluster Name") =
      [some (PyVal.str "clusterA"), some (PyVal.str "clusterA")] ∧
    C1_rows.map (fun r => dictGet r "Insights") =
      [some (PyVal.str "Insight one"), some (PyVal.str "Insight two")] ∧
    write_list_of_dicts_to_csv C1_rows =
      .ok ⟨["Status", "Cluster Name", "Job Name", "Cluster Type", "User",
            "Workspace", "Start Time", "Setup Duration", "Duration", "Cost",
            "DBUs", "Insights"], C1_rows⟩ :=
  ⟨rfl, rfl, rfl, rfl, rfl⟩

/-- A cluster record whose non-insight field values alone make the
flattener raise: `start_time` holds an int, and an int has no `.split`. -/
def C6_badCluster : PyDict :=
  [("start_time", PyVal.int 5),
   ("clusterUid", PyVal.str "u"), ("id", PyVal.str "i")]

/-- C6 counterexample: the claim promises zero rows for an empty insight
list and exactly one row per title otherwise, "regardless of the record's
other field values" — but a record whose `start_time` is a non-string makes
`parse_cluster_data` raise AttributeError before any row is emitted, with
an empty insight list as well as with a non-empty one. -/
theorem C6_counterexample :
    parse_cluster_data false (fun _ => []) [C6_badCluster] =
      .error PyErr.attributeError ∧
    parse_cluster_data false (fun _ => ["Some insight"]) [C6_badCluster] =
      .error PyErr.attributeError ∧
    (parse_cluster_data false (fun _ => ["Some insight"]) [C6_badCluster]).isOk
      = false :=
  ⟨rfl, rfl, rfl⟩

/-- C6 (amended): for every cluster record whose field pipeline succeeds,
the record contributes one row per (deduplicated) insight title — each row
a copy of the processed fields plus the title — and contributes no row at
all when the fetched insight list is empty. -/
theorem C6_rows_per_title (keep_dups : Bool) (fetch : PyDict → List String)
    (cluster : PyDict) (td : PyDict) (rest : List PyDict)
    (hok : processClusterFields cluster = .ok td)
    (huid : (dictGet cluster "clusterUid").isSome = true)
    (hid : (dictGet cluster "id").isSome = true) :
    parse_cluster_data keep_dups fetch (cluster :: rest) =
      (parse_cluster_data keep_dups fetch rest).map
        (fun more =>
          (dedup_insights keep_dups (fetch cluster)).map
            (fun val => dictSet td "Insights" (PyVal.str val)) ++ more) ∧
    (fetch cluster = [] →
      parse_cluster_data keep_dups fetch (cluster :: rest) =
        parse_cluster_data keep_dups fetch rest) := by
  obtain ⟨u, hu⟩ := Option.isSome_iff_exists.mp huid
  obtain ⟨i, hi⟩ := Option.isSome_iff_exists.mp hid
  have hbind : ∀ {β : Type} (a : PyDict) (f : PyDict → Except PyErr β),
      (Except.ok a : Except PyErr PyDict) >>= f = f a := fun _ _ => rfl
  have hmain :
      parse_cluster_data keep_dups fetch (cluster :: rest) =
        (parse_cluster_data keep_dups fetch rest).map
          (fun more =>
            (dedup_insights keep_dups (fetch cluster)).map
              (fun val => dictSet td "Insights" (PyVal.str val)) ++ more) := by
    simp only [parse_cluster_data, hok, hbind, hu, hi]
    cases hrest : parse_cluster_data keep_dups fetch rest <;> rfl
  refine ⟨hmain, fun hfe => ?_⟩
  rw [hmain, hfe]
  have hded : dedup_insights keep_dups [] = [] := by
    cases keep_dups <;> rfl
  rw [hded]
  cases hrest : parse_cluster_data keep_dups fetch rest <;> simp [Except.map]

/-- A sparse but well-formed cluster record used to instantiate the amended
C6 theorem. -/
def C6_okCluster : PyDict :=
  [("name", PyVal.str "clusterC"), ("start_time", PyVal.str ""),
   ("clusterUid", PyVal.str "uidC"), ("id", PyVal.str "idC")]

/-- The processed field dict of `C6_okCluster`. -/
def C6_okRow : PyDict :=
  [("Status", PyVal.none), ("Cluster Name", PyVal.str "clusterC"),
   ("Job Name", PyVal.none), ("Cluster Type", PyVal.none),
   ("User", PyVal.none), ("Workspace", PyVal.none),
   ("Start Time", PyVal.str "-"), ("Setup Duration", PyVal.none),
   ("Duration", PyVal.none), ("Cost", PyVal.none), ("DBUs", PyVal.none)]

/-- C6 witness: the amended theorem applied to a concrete record with an
empty insight list. -/
theorem C6_rows_per_title_witness :
    parse_cluster_data false (fun _ => []) [C6_okCluster] =
      parse_cluster_data false (fun _ => []) [] :=
  (C6_rows_per_title false (fun _ => []) C6_okCluster C6_okRow [] rfl rfl rfl).2 rfl

/-- C7: in the flattener's normalization, an empty string becomes the
placeholder "-", a zero int or float and an absent value become `None`
(never the literal 0), every other value passes through unchanged, and
every projected field of every cluster record goes through exactly this
normalization. -/
theorem C7_field_normalization :
    normalize_value (PyVal.str "") = PyVal.str "-" ∧
    normalize_value (PyVal.int 0) = PyVal.none ∧
    normalize_value (PyVal.float 0) = PyVal.none ∧
    normalize_value PyVal.none = PyVal.none ∧
    (∀ s : String, s ≠ "" → normalize_value (PyVal.str s) = PyVal.str s) ∧
    (∀ n : Int, n ≠ 0 → normalize_value (PyVal.int n) = PyVal.int n) ∧
    (∀ q : ℚ, q ≠ 0 → normalize_value (PyVal.float q) = PyVal.float q) ∧
    (∀ (cluster : PyDict) (kv : String × String), kv ∈ fieldnames_dict →
      (kv.2, normalize_value (dictGetD cluster kv.1)) ∈ project_normalize cluster) := by
  refine ⟨rfl, rfl, rfl, rfl, ?_, ?_, ?_, ?_⟩
  · intro s hs
    simp [normalize_value, hs]
  · intro n hn
    simp [normalize_value, hn]
  · intro q hq
    simp [normalize_value, hq]
  · intro cluster kv hkv
    exact List.mem_map_of_mem _ hkv

/-- C7 witness: the normalization facts at concrete values and a concrete
projected field. -/
theorem C7_field_normalization_witness :
    normalize_value (PyVal.str "x") = PyVal.str "x" ∧
    normalize_value (PyVal.int 7) = PyVal.int 7 ∧
    normalize_value (PyVal.float 3) = PyVal.float 3 ∧
    ("Status", normalize_value (dictGetD [] "status_long")) ∈
      project_normalize [] := by
  obtain ⟨-, -, -, -, h5, h6, h7, h8⟩ := C7_field_normalization
  exact ⟨h5 "x" (by decide), h6 7 (by decide), h7 3 (by decide),
    h8 [] ("status_long", "Status") (by decide)⟩

/-- A cluster record for the C9 scenario: well-formed, but its insight
fetch returns no titles, so it contributes no row. -/
def C9_cluster : PyDict :=
  [("name", PyVal.str "clusterD"), ("start_time", PyVal.str ""),
   ("clusterUid", PyVal.str "uidD"), ("id", PyVal.str "idD")]

/-- C9: when every fetched cluster yields zero insight titles the flattened
report is empty, and the CSV writer raises an uncaught IndexError on the
empty list — `data[0]` is read before the try block — so the run does not
complete normally. -/
theorem C9_empty_report_crash :
    write_list_of_dicts_to_csv [] = .error PyErr.indexError ∧
    parse_cluster_data false (fun _ => []) [C9_cluster] = .ok [] ∧
    (parse_cluster_data false (fun _ => []) [C9_cluster]).bind
      write_list_of_dicts_to_csv = .error PyErr.indexError :=
  ⟨rfl, rfl, rfl⟩

/-- An instance entry of the per-job analysis response; the fetcher reads
only its `title` string. -/
structure SparkInstance where
  title : String
  deriving Repr, DecidableEq

/-- A category value of the analysis response: the dict holding the
`instances` list. -/
structure CategoryValue where
  instances : List SparkInstance
  deriving Repr, DecidableEq

/-- One element of the `insightsV2` list: its `categories` dict, embedded
as an insertion-ordered association list from category key to value. -/
structure AnalysisItem where
  categories : List (String × CategoryValue)
  deriving Repr, DecidableEq

/-- The `insightsV2` field of the analysis response body: either not a list
(the early-return case of the source) or a list of items. -/
inductive InsightsV2 where
  | notList
  | items (l : List AnalysisItem)
  deriving Repr, DecidableEq

/-- The parts of the analysis HTTP response that
`get_cluster_insights_by_app` reads. -/
structure AnalysisResponse where
  status : Nat
  insightsV2 : InsightsV2
  deriving Repr, DecidableEq

/-- The innermost loop of `get_cluster_insights_by_app` (source lines
387-392): iterate one category's instances, appending each title to the
accumulator unless the category key is falsy (empty), in which case the
iteration continues without appending. -/
def insights_instances_loop (category_key : String) (acc : List String) :
    List SparkInstance → List String
  | [] => acc
  | inst :: rest =>
    insights_instances_loop category_key
      (if category_key = "" then acc else acc ++ [inst.title]) rest

/-- The middle loop (source line 386): iterate the `categories` items of
one `insightsV2` element. -/
def insights_categories_loop (acc : List String) :
    List (String × CategoryValue) → List String
  | [] => acc
  | kc :: rest =>
    insights_categories_loop (insights_instances_loop kc.1 acc kc.2.instances) rest

/-- The outer loop (source line 384): iterate the `insightsV2` list. -/
def insights_items_loop (acc : List String) : List AnalysisItem → List String
  | [] => acc
  | item :: rest =>
    insights_items_loop (insights_categories_loop acc item.categories) rest

/-- Embedding of `get_cluster_insights_by_app` (source lines 367-393): on a
non-200 status the accumulated list stays empty; on 200 a non-list
`insightsV2` returns empty, and a list is traversed with the three nested
loops. -/
def get_cluster_insights_by_app (resp : AnalysisResponse) : List String :=
  if resp.status = 200 then
    match resp.insightsV2 with
    | .notList => []
    | .items l => insights_items_loop [] l
  else []

/-- Specification-side flattening: the title of every instance under every
non-empty category key, in traversal order. -/
def spec_insight_titles (l : List AnalysisItem) : List String :=
  (l.map (fun item =>
    (item.categories.map (fun kc =>
      if kc.1 = "" then []
      else kc.2.instances.map (fun inst => inst.title))).flatten)).flatten

theorem insights_instances_loop_eq (k : String) (xs : List SparkInstance) :
    ∀ acc, insights_instances_loop k acc xs =
      acc ++ (if k = "" then [] else xs.map (fun inst => inst.title)) := by
  induction xs with
  | nil => intro acc; by_cases hk : k = "" <;> simp [insights_instances_loop, hk]
  | cons inst rest ih =>
    intro acc
    by_cases hk : k = ""
    · subst hk
      simp [insights_instances_loop, ih]
    · simp [insights_instances_loop, hk, ih]

theorem insights_categories_loop_eq (cs : List (String × CategoryValue)) :
    ∀ acc, insights_categories_loop acc cs =
      acc ++ (cs.map (fun kc =>
        if kc.1 = "" then []
        else kc.2.instances.map (fun inst => inst.title))).flatten := by
  induction cs with
  | nil => intro acc; simp [insights_categories_loop]
  | cons kc rest ih =>
    intro acc
    simp [insights_categories_loop, ih, insights_instances_loop_eq]

theorem insights_items_loop_eq (l : List AnalysisItem) :
    ∀ acc, insights_items_loop acc l = acc ++ spec_insight_titles l := by
  induction l with
  | nil => intro acc; simp [insights_items_loop, spec_insight_titles]
  | cons item rest ih =>
    intro acc
    simp [insights_items_loop, ih, insights_categories_loop_eq,
      spec_insight_titles]

/-- C8: a non-200 analysis response yields the empty title list (the
per-cluster fetch failure is not fatal), and a 200 response yields the
title of every instance under every non-empty category key of the
`insightsV2` list, in traversal order. -/
theorem C8_insight_fetch (resp : AnalysisResponse) :
    (resp.status ≠ 200 → get_cluster_insights_by_app resp = []) ∧
    (resp.status = 200 → resp.insightsV2 = InsightsV2.notList →
      get_cluster_insights_by_app resp = []) ∧
    (∀ l, resp.status = 200 → resp.insightsV2 = InsightsV2.items l →
      get_cluster_insights_by_app resp = spec_insight_titles l) := by
  refine ⟨fun h => ?_, fun h hnl => ?_, fun l h hl => ?_⟩
  · simp [get_cluster_insights_by_app, h]
  · simp [get_cluster_insights_by_app, h, hnl]
  · simp only [get_cluster_insights_by_app, h, if_pos rfl, hl]
    simpa using insights_items_loop_eq l []

/-- A concrete analysis payload: one item whose categories hold an
anonymous (empty-key) category with one instance and two named categories,
one of them with two instances. -/
def C8_payload : List AnalysisItem :=
  [⟨[("", ⟨[⟨"not an insight"⟩]⟩),
     ("Efficiency", ⟨[⟨"Idle executors"⟩, ⟨"Oversized container"⟩]⟩),
     ("Bottlenecks", ⟨[⟨"Slow stage"⟩]⟩)]⟩]

/-- C8 witness: the fetcher applied to a failing response and to a 200
response carrying `C8_payload`. -/
theorem C8_insight_fetch_witness :
    get_cluster_insights_by_app ⟨500, InsightsV2.items C8_payload⟩ = [] ∧
    get_cluster_insights_by_app ⟨200, InsightsV2.notList⟩ = [] ∧
    get_cluster_insights_by_app ⟨200, InsightsV2.items C8_payload⟩ =
      spec_insight_titles C8_payload ∧
    spec_insight_titles C8_payload =
      ["Idle executors", "Oversized container", "Slow stage"] := by
  refine ⟨(C8_insight_fetch ⟨500, InsightsV2.items C8_payload⟩).1 (by decide),
    (C8_insight_fetch ⟨200, InsightsV2.notList⟩).2.1 rfl rfl,
    (C8_insight_fetch ⟨200, InsightsV2.items C8_payload⟩).2.2 C8_payload rfl rfl,
    ?_⟩
  simp [spec_insight_titles, C8_payload]

/-- A timezone-naive Python datetime value as produced by
`datetime.utcnow()`.  The constructor of `datetime` guarantees
`microsecond < 1000000`, `second <= 59`, and so on; the fields here are the
ones `isoformat` prints. -/
structure PyDatetime where
  year : Nat
  month : Nat
  day : Nat
  hour : Nat
  minute : Nat
  second : Nat
  microsecond : Nat
  deriving Repr, DecidableEq

/-- Fixed-width 2-digit decimal field, as `isoformat` prints month, day,
hour, minute and second (all below 100 for valid datetimes). -/
def pad2 (n : Nat) : String :=
  String.mk [Nat.digitChar (n / 10 % 10), Nat.digitChar (n % 10)]

/-- Fixed-width 3-digit decimal field (one half of the 6-digit microsecond
field). -/
def pad3 (n : Nat) : String :=
  String.mk [Nat.digitChar (n / 100 % 10), Nat.digitChar (n / 10 % 10),
    Nat.digitChar (n % 10)]

/-- Fixed-width 4-digit decimal field, as `isoformat` prints the year. -/
def pad4 (n : Nat) : String :=
  String.mk [Nat.digitChar (n / 1000 % 10), Nat.digitChar (n / 100 % 10),
    Nat.digitChar (n / 10 % 10), Nat.digitChar (n % 10)]

/-- Behaviour of the standard library's `datetime.isoformat()` on a naive
datetime: `YYYY-MM-DDTHH:MM:SS`, with the 6-digit `.ffffff` microsecond
field appended only when the microsecond is non-zero.  The 6-digit field is
written as its two 3-digit halves (`microsecond = 1000 * (microsecond /
1000) + microsecond % 1000`). -/
def pyIsoformat (dt : PyDatetime) : String :=
  pad4 dt.year ++ "-" ++ pad2 dt.month ++ "-" ++ pad2 dt.day ++ "T" ++
    pad2 dt.hour ++ ":" ++ pad2 dt.minute ++ ":" ++ pad2 dt.second ++
    (if dt.microsecond = 0 then ""
     else "." ++ pad3 (dt.microsecond / 1000) ++ pad3 (dt.microsecond % 1000))

/-- Python string slicing `s[:-n]`: everything but the last `n`
characters (empty when `n` is at least the length). -/
def pyDropLast (n : Nat) (s : String) : String :=
  String.mk (s.data.take (s.data.length - n))

/-- Embedding of the window-timestamp expression
`str(datetime.utcnow().isoformat())[:-3] + 'Z'` shared by
`get_zulu_datetime_now` (source line 128), `subtract_timedelta_from_now`
(source line 161) and the `end_time` parameter of `get_cluster_detail`
(source line 244), as a function of the datetime being formatted. -/
def get_zulu_datetime_now (dt : PyDatetime) : String :=
  pyDropLast 3 (pyIsoformat dt) ++ "Z"

/-- The date-hour-minute prefix of an isoformat timestamp: what remains
when the `[:-3]` truncation eats the `:SS` seconds field. -/
def isoDateHourMin (dt : PyDatetime) : String :=
  pad4 dt.year ++ "-" ++ pad2 dt.month ++ "-" ++ pad2 dt.day ++ "T" ++
    pad2 dt.hour ++ ":" ++ pad2 dt.minute

/-- The full second-precision base of an isoformat timestamp. -/
def isoBase (dt : PyDatetime) : String :=
  isoDateHourMin dt ++ ":" ++ pad2 dt.second

theorem pyDropLast3_append (s : String) (l : List Char) (c1 c2 c3 : Char)
    (h : s.data = l ++ [c1, c2, c3]) : pyDropLast 3 s = String.mk l := by
  unfold pyDropLast
  rw [h, List.length_append]
  simp only [List.length_cons, List.length_nil, Nat.add_sub_cancel]
  rw [List.take_left]

/-- C10: the shared `[:-3] + 'Z'` window-timestamp formatting yields a
millisecond-precision ISO timestamp exactly when the microsecond component
is non-zero; when the microsecond is zero `isoformat` prints no fractional
part, so the truncation removes the `:SS` seconds field and leaves the
malformed `...THH:MMZ`. -/
theorem C10_zulu_truncation (dt : PyDatetime) (_hs : dt.second ≤ 59) :
    (dt.microsecond = 0 →
      get_zulu_datetime_now dt = isoDateHourMin dt ++ "Z") ∧
    (dt.microsecond ≠ 0 →
      get_zulu_datetime_now dt =
        isoBase dt ++ "." ++ pad3 (dt.microsecond / 1000) ++ "Z") := by
  constructor
  · intro h0
    have hdata : (pyIsoformat dt).data =
        (isoDateHourMin dt).data ++
          [':', Nat.digitChar (dt.second / 10 % 10), Nat.digitChar (dt.second % 10)] := by
      simp [pyIsoformat, isoDateHourMin, h0, pad2]
    rw [get_zulu_datetime_now,
      pyDropLast3_append (pyIsoformat dt) (isoDateHourMin dt).data _ _ _ hdata]
  · intro hne
    have hdata : (pyIsoformat dt).data =
        (isoBase dt ++ "." ++ pad3 (dt.microsecond / 1000)).data ++
          [Nat.digitChar (dt.microsecond % 1000 / 100 % 10),
           Nat.digitChar (dt.microsecond % 1000 / 10 % 10),
           Nat.digitChar (dt.microsecond % 1000 % 10)] := by
      simp [pyIsoformat, isoBase, isoDateHourMin, hne, pad3]
    rw [get_zulu_datetime_now,
      pyDropLast3_append (pyIsoformat dt)
        (isoBase dt ++ "." ++ pad3 (dt.microsecond / 1000)).data _ _ _ hdata]

/-- C10 witness: a zero-microsecond datetime loses its seconds digits and
a non-zero-microsecond datetime keeps millisecond precision. -/
theorem C10_zulu_truncation_witness :
    get_zulu_datetime_now ⟨2024, 9, 25, 12, 34, 56, 0⟩ = "2024-09-25T12:34Z" ∧
    get_zulu_datetime_now ⟨2024, 9, 25, 12, 34, 56, 789123⟩ =
      "2024-09-25T12:34:56.789Z" := by
  constructor
  · rw [(C10_zulu_truncation ⟨2024, 9, 25, 12, 34, 56, 0⟩ (by decide)).1 rfl]
    rfl
  · rw [(C10_zulu_truncation ⟨2024, 9, 25, 12, 34, 56, 789123⟩ (by decide)).2
      (by decide)]
    rfl

end Unravel
